import Mathlib

/-!
Verification of the TinaCMS storage-adapter excerpt.

Embedded code:
* `packages/tinacms/src/utils/parseUrl.ts` — the connection resolver
  `parseURL`, together with models of the two external collaborators it
  uses: the WHATWG `URL` constructor (host / pathname extraction) and the
  `url-pattern` library's match of `/content/:clientId/github/*`.
* `packages/@tinacms/graphql/src/database/bridge/fauna.ts` — two revisions
  of `FaunaBridge`: the query-DSL revision (here the `v1` definitions) and
  the REST revision (here `v2`).
* `packages/@tinacms/datalayer/src/database/bridge/fauna.ts` — the REST
  revision of `FaunaBridge` in the datalayer package (here `v3`).
* `packages/@tinacms/datalayer/src/database/store/fauna.ts` — the two
  revisions of `FaunaStore` and their capability flags.

The remote backends (the Fauna database behind the query DSL, and the REST
page service behind `fetch`) are not part of the excerpt; they are modelled
as explicit state machines over a path-to-payload association list, following
the spec's data model and wire shapes.
-/

namespace Tina

/- ### String primitives -/

/-- Does `needle` occur as a contiguous run inside `hay`?  List form of the
JS `String.prototype.includes` test used by `parseURL`. -/
def hasSub (needle : List Char) : List Char → Bool
  | [] => needle.isEmpty
  | c :: rest => needle.isPrefixOf (c :: rest) || hasSub needle rest

/-- Model of JS `url.includes(pat)`: substring containment. -/
def strIncludes (s pat : String) : Bool := hasSub pat.data s.data

/-- Does the first list start the second?  Character-wise prefix test. -/
def startsList : List Char → List Char → Bool
  | [], _ => true
  | _ :: _, [] => false
  | a :: as, b :: bs => a == b && startsList as bs

/-- Model of JS `s.startsWith(q)`: does `s` start with `q`?  This is the
"stored path starts with the prefix" relation of the glob contract. -/
def strStartsWith (q s : String) : Bool := startsList q.data s.data

/-- Drop an expected literal run from the front of a list; `none` when the
list does not start with it. -/
def dropRun : List Char → List Char → Option (List Char)
  | [], rest => some rest
  | _ :: _, [] => none
  | a :: as, b :: bs => if a = b then dropRun as bs else none

/-- Split a list at the first occurrence of `sep`: the part before and the
part after.  `none` when `sep` does not occur. -/
def breakOn (sep : List Char) : List Char → Option (List Char × List Char)
  | [] => if sep.isEmpty then some ([], []) else none
  | c :: cs =>
    if sep.isPrefixOf (c :: cs) then some ([], (c :: cs).drop sep.length)
    else
      match breakOn sep cs with
      | some (a, b) => some (c :: a, b)
      | none => none

/- ### Model of the WHATWG URL constructor (external collaborator of parseURL) -/

/-- Strip a default port from the authority the way the JS `URL` class does:
`:443` for `https`, `:80` for `http`. -/
def stripDefaultPort (scheme host : List Char) : List Char :=
  if scheme = "https".data ∧ ":443".data.isSuffixOf host then host.take (host.length - 4)
  else if scheme = "http".data ∧ ":80".data.isSuffixOf host then host.take (host.length - 3)
  else host

/-- Model of the JS `new URL(url)` constructor restricted to the behavior
`parseURL` relies on: split `scheme://authority/path`, lower-case the host,
strip a scheme-default port, cut the pathname before any query or fragment,
and default an empty path to `/`.  Userinfo and percent-encoding are not
modelled; inputs that do not contain `://` with a nonempty scheme and host
are rejected (`none`), standing for the constructor throwing a TypeError.
Returns `(host, pathname)`. -/
def urlParse (url : String) : Option (String × String) :=
  match breakOn "://".data url.data with
  | none => none
  | some (scheme, rest) =>
    if scheme.isEmpty then none
    else
      let hostEnd := fun c => c == '/' || c == '?' || c == '#'
      let hostRaw := rest.takeWhile (fun c => !(hostEnd c))
      let tail0 := rest.dropWhile (fun c => !(hostEnd c))
      if hostRaw.isEmpty then none
      else
        let host := stripDefaultPort scheme (hostRaw.map Char.toLower)
        let path := tail0.takeWhile (fun c => !(c == '?' || c == '#'))
        let pathname := if path.isEmpty then "/".data else path
        some (String.mk host, String.mk pathname)

/- ### Model of the url-pattern match (external collaborator of parseURL) -/

/-- The default segment-value character set of the `url-pattern` library:
`a-zA-Z0-9-_~ %`.  The `escapeChar: ' '` option only changes the escape
character and does not affect this pattern, which contains no escapes. -/
def segmentChar (c : Char) : Bool :=
  c.isAlpha || c.isDigit || c == '-' || c == '_' || c == '~' || c == ' ' || c == '%'

/-- Match of the fixed pattern `/content/:clientId/github/*` against a
pathname, per the `url-pattern` compilation: `:clientId` is a nonempty
greedy run of `segmentChar` characters (which excludes `/`, so the run ends
at the next `/`), the literals match themselves, and the trailing `*`
captures the remainder (possibly empty).  Result is
`(clientId, branch)` where `branch` is the `*` capture (the `_` field). -/
def patternMatch (pathname : String) : Option (String × String) :=
  match dropRun "/content/".data pathname.data with
  | none => none
  | some rest =>
    let cid := rest.takeWhile segmentChar
    let rest2 := rest.dropWhile segmentChar
    if cid.isEmpty then none
    else
      match dropRun "/github/".data rest2 with
      | none => none
      | some tailPart => some (String.mk cid, String.mk tailPart)

/- ### parseURL (packages/tinacms/src/utils/parseUrl.ts) -/

/-- `TINA_HOST` of parseUrl.ts. -/
def TINA_HOST : String := "content.tinajs.io"

/-- The record `parseURL` returns; JS `null` is `none`. -/
structure ParsedUrl where
  branch : Option String
  isLocalClient : Bool
  clientId : Option String
  isFaunaClient : Bool
  faunaContentUrl : Option String
deriving DecidableEq, Repr

/-- The two ways `parseURL` can throw: the `URL` constructor's TypeError on
an unparsable input, and the explicit `Invalid URL format provided` error. -/
inductive ParseUrlError where
  | invalidUrl
  | formatError
deriving DecidableEq, Repr

/-- `parseURL` of parseUrl.ts.  The source computes the pattern match before
the host comparison but only reads it afterwards; both are pure, so the
match is placed in the branch that uses it.  The `!branch || !clientId`
test uses JS falsiness: `branch` is falsy when the match failed or the `*`
capture is the empty string, `clientId` only when the match failed (a
matched `:clientId` is never empty). -/
def parseURL (url : String) : Except ParseUrlError ParsedUrl :=
  if strIncludes url "localhost" then
    .ok ⟨none, true, none, false, none⟩
  else
    match urlParse url with
    | none => .error .invalidUrl
    | some (host, pathname) =>
      if host ≠ TINA_HOST then
        .ok ⟨none, false, none, true, some url⟩
      else
        match patternMatch pathname with
        | some (clientId, branch) =>
          if branch = "" then .error .formatError
          else .ok ⟨some branch, false, some clientId, false, none⟩
        | none => .error .formatError

/- ### JSON values on the REST wire -/

/-- A flat JSON field value as used on this wire: a string or an array of
strings. -/
inductive JVal where
  | s : String → JVal
  | a : List String → JVal
deriving DecidableEq, Repr

/-- A JSON document as used on this wire: a bare value or a flat object. -/
inductive Json where
  | val : JVal → Json
  | obj : List (String × JVal) → Json
deriving DecidableEq, Repr

/-- First binding of a key in a field list (JS object field access). -/
def fieldsLookup : List (String × JVal) → String → Option JVal
  | [], _ => none
  | kv :: rest, k => if kv.1 = k then some kv.2 else fieldsLookup rest k

/-- `j.k` field access; `none` is JS `undefined`. -/
def jlookup (j : Json) (k : String) : Option JVal :=
  match j with
  | .val _ => none
  | .obj fields => fieldsLookup fields k

/-- A request body as the bridge actually sends it.  `JSON.stringify` of a
flat object is `jsonB`; calling `.toString()` on a JS object literal (as the
graphql REST revision does) yields the constant text `[object Object]`
whatever the fields were, so that body is `nonJson` carrying that constant:
the field values are genuinely absent from the wire. -/
inductive BodyVal where
  | nonJson : String → BodyVal
  | jsonB : Json → BodyVal
deriving DecidableEq, Repr

/-- An HTTP response as `fetch` resolves it: the `ok` flag and the body,
`none` standing for a body that is not valid JSON (on which `.json()`
rejects). -/
structure Resp where
  ok : Bool
  body : Option Json
deriving DecidableEq, Repr

/-- Outcome of one `fetch` round trip: the promise rejects (network
failure) or resolves with a response. -/
inductive FetchResult where
  | netFail
  | success : Resp → FetchResult
deriving DecidableEq, Repr

/-- The errors a fetch-based bridge operation can propagate: the rejected
fetch itself, or `.json()` rejecting on a non-JSON body. -/
inductive JsError where
  | fetchRejected
  | jsonParseFailed
deriving DecidableEq, Repr

/-- JS `response.json()`. -/
def respJson (r : Resp) : Except JsError Json :=
  match r.body with
  | some j => .ok j
  | none => .error .jsonParseFailed

/- ### The backend document map -/

/-- The backend's document collection: an association list from document
path (the `filename`/`filepath` field) to payload (the `page`/`data`
field).  First binding wins on lookup, mirroring a unique index. -/
abbrev ServerState := List (String × String)

/-- Payload stored at a path, if any. -/
def lookupState : ServerState → String → Option String
  | [], _ => none
  | kv :: rest, p => if kv.1 = p then some kv.2 else lookupState rest p

/-- Upsert: overwrite the first binding of the path, or append a new
document when the path is absent.  This is both the REST service's write
and the query-DSL revision's `If(IsEmpty(match), Create(...), Update(...))`. -/
def upsert : ServerState → String → String → ServerState
  | [], p, v => [(p, v)]
  | kv :: rest, p, v => if kv.1 = p then (p, v) :: rest else kv :: upsert rest p v

/-- Remove every document at the path. -/
def removeAll : ServerState → String → ServerState
  | [], _ => []
  | kv :: rest, p => if kv.1 = p then removeAll rest p else kv :: removeAll rest p

/- ### The REST page service (not part of the excerpt) -/

/-- The four REST endpoints the bridges call, with the information each
request actually carries. -/
inductive Req where
  | listDir : BodyVal → Req
  | readPage : String → Req
  | writePage : BodyVal → Req
  | deletePage : BodyVal → Req
deriving DecidableEq, Repr

/-- The service's rejection of a request it cannot parse. -/
def errResp : Resp := ⟨false, some (Json.obj [("error", JVal.s "invalid request body")])⟩

/-- The service's acknowledgement response. -/
def ackResp : Resp := ⟨true, some (Json.obj [])⟩

/-- A string field of a request body; `none` when the body is not JSON or
the field is missing — a `nonJson` body carries no fields at all. -/
def bodyField (b : BodyVal) (k : String) : Option String :=
  match b with
  | .jsonB j =>
    match jlookup j k with
    | some (.s v) => some v
    | _ => none
  | .nonJson _ => none

/-- Modelled from the spec: the REST page service behind the `fetch`-based
bridge revisions; its code is not in the excerpt, only the wire shapes are
(list `POST /page-dir` body `filepath` answering `data: string[]`; read
`GET /page?filepath=` answering the payload or empty; write `POST /page`
body `filepath`+`data`; `DELETE /page` body `filepath`).  It filters the
stored paths by literal prefix server-side, answers the stored payload or
the empty string on read, upserts on write, removes on delete, and rejects
a request whose body it cannot parse without touching the state. -/
def pageService (st : ServerState) : Req → Resp × ServerState
  | .listDir b =>
    match bodyField b "filepath" with
    | some q =>
      (⟨true, some (Json.obj [("data", JVal.a ((st.map (fun kv => kv.1)).filter (fun p => strStartsWith q p)))])⟩, st)
    | none => (errResp, st)
  | .readPage p =>
    (⟨true, some (Json.val (JVal.s ((lookupState st p).getD "")))⟩, st)
  | .writePage b =>
    match bodyField b "filepath", bodyField b "data" with
    | some p, some d => (ackResp, upsert st p d)
    | _, _ => (errResp, st)
  | .deletePage b =>
    match bodyField b "filepath" with
    | some p => (ackResp, removeAll st p)
    | none => (errResp, st)

/- ### v2: FaunaBridge, graphql package, REST revision -/

/-- v2 `readDir` request: `fetch(domain/page-dir, body: ({filepath}).toString())`.
The JS `.toString()` of an object literal is the constant `[object Object]`;
the prefix never reaches the wire. -/
def v2ListDirReq (_q : String) : Req := .listDir (.nonJson "[object Object]")

/-- v2 `get` request: `fetch(domain/page?filepath=p)` — the path rides in
the query string, so it does reach the service. -/
def v2ReadPageReq (p : String) : Req := .readPage p

/-- v2 `put` request: `fetch(domain/page, body: ({filename, path, data}).toString())`
— again the constant `[object Object]`; path and payload are lost. -/
def v2WritePageReq (_p _d : String) : Req := .writePage (.nonJson "[object Object]")

/-- v2 `delete` request: `fetch(domain/page, DELETE, body: ({filepath}).toString())`. -/
def v2DeleteReq (_p : String) : Req := .deletePage (.nonJson "[object Object]")

/-- v2 `readDir` response handling: `documents = await (await fetch(...)).json();
if (documents.data !== undefined) return documents.data; return []`.
No `ok` check; a non-JSON body makes `.json()` reject. -/
def v2ReadDirHandle : FetchResult → Except JsError (List String)
  | .netFail => .error .fetchRejected
  | .success r =>
    match respJson r with
    | .error e => .error e
    | .ok j =>
      match jlookup j "data" with
      | some (.a xs) => .ok xs
      | _ => .ok []

/-- v2 `get` response handling: `page = await (await fetch(...)).json();
if (page !== undefined) return page; return ''` — a parsed JSON value is
never `undefined`, so the parse result is returned as is. -/
def v2GetHandle : FetchResult → Except JsError Json
  | .netFail => .error .fetchRejected
  | .success r => respJson r

/-- v2 `put` response handling: `await (await fetch(...)).json()` with no
`return` — the parse result is discarded and the method resolves with
`undefined` (`none`). -/
def v2Put : FetchResult → Except JsError (Option Json)
  | .netFail => .error .fetchRejected
  | .success r => (respJson r).map (fun _ => none)

/-- v2 `putConfig`: `await this.put(filepath, data)` with no `return`. -/
def v2PutConfig (fr : FetchResult) : Except JsError (Option Json) :=
  (v2Put fr).map (fun _ => none)

/-- v2 `delete` response handling: the response is not even read. -/
def v2DeleteHandle : FetchResult → Except JsError Unit
  | .netFail => .error .fetchRejected
  | .success _ => .ok ()

/-- v2 `glob` round trip against the page service (transport succeeding). -/
def v2GlobRun (st : ServerState) (q : String) : Except JsError (List String) × ServerState :=
  let rs := pageService st (v2ListDirReq q)
  (v2ReadDirHandle (.success rs.1), rs.2)

/-- v2 `get` round trip. -/
def v2GetRun (st : ServerState) (p : String) : Except JsError Json × ServerState :=
  let rs := pageService st (v2ReadPageReq p)
  (v2GetHandle (.success rs.1), rs.2)

/-- v2 `put` round trip. -/
def v2PutRun (st : ServerState) (p d : String) : Except JsError (Option Json) × ServerState :=
  let rs := pageService st (v2WritePageReq p d)
  (v2Put (.success rs.1), rs.2)

/-- v2 `delete` round trip. -/
def v2DeleteRun (st : ServerState) (p : String) : Except JsError Unit × ServerState :=
  let rs := pageService st (v2DeleteReq p)
  (v2DeleteHandle (.success rs.1), rs.2)

/- ### v3: FaunaBridge, datalayer package, REST revision -/

/-- v3 `readDir` request: `JSON.stringify` of the `filepath` object. -/
def v3ListDirReq (q : String) : Req := .listDir (.jsonB (.obj [("filepath", JVal.s q)]))

/-- v3 `get` request. -/
def v3ReadPageReq (p : String) : Req := .readPage p

/-- v3 `put` request: `JSON.stringify` of `filepath` and `data`. -/
def v3WritePageReq (p d : String) : Req :=
  .writePage (.jsonB (.obj [("filepath", JVal.s p), ("data", JVal.s d)]))

/-- v3 `delete` request: `JSON.stringify` of the `filepath` object. -/
def v3DeleteReq (p : String) : Req := .deletePage (.jsonB (.obj [("filepath", JVal.s p)]))

/-- v3 `readDir` response handling: `if (documents.ok) { result = await
documents.json(); if (result.data !== undefined) return result.data }
return []` — an `ok: false` response falls through to `[]`. -/
def v3ReadDirHandle : FetchResult → Except JsError (List String)
  | .netFail => .error .fetchRejected
  | .success r =>
    if r.ok then
      match respJson r with
      | .error e => .error e
      | .ok j =>
        match jlookup j "data" with
        | some (.a xs) => .ok xs
        | _ => .ok []
    else .ok []

/-- v3 `get` response handling: `if (page !== undefined && page.ok) return
page.json(); return ''` — a resolved fetch response is never `undefined`,
and an `ok: false` response becomes the empty string. -/
def v3GetHandle : FetchResult → Except JsError Json
  | .netFail => .error .fetchRejected
  | .success r => if r.ok then respJson r else .ok (Json.val (JVal.s ""))

/-- v3 `put` response handling: `return response.ok ? response.json() : ''`. -/
def v3Put : FetchResult → Except JsError (Option Json)
  | .netFail => .error .fetchRejected
  | .success r =>
    if r.ok then (respJson r).map (fun j => some j)
    else .ok (some (Json.val (JVal.s "")))

/-- v3 `delete` response handling: the response is ignored. -/
def v3DeleteHandle : FetchResult → Except JsError Unit
  | .netFail => .error .fetchRejected
  | .success _ => .ok ()

/-- v3 `glob` round trip against the page service (transport succeeding). -/
def v3GlobRun (st : ServerState) (q : String) : Except JsError (List String) × ServerState :=
  let rs := pageService st (v3ListDirReq q)
  (v3ReadDirHandle (.success rs.1), rs.2)

/-- v3 `get` round trip. -/
def v3GetRun (st : ServerState) (p : String) : Except JsError Json × ServerState :=
  let rs := pageService st (v3ReadPageReq p)
  (v3GetHandle (.success rs.1), rs.2)

/-- v3 `put` round trip. -/
def v3PutRun (st : ServerState) (p d : String) : Except JsError (Option Json) × ServerState :=
  let rs := pageService st (v3WritePageReq p d)
  (v3Put (.success rs.1), rs.2)

/-- v3 `putConfig` round trip: `await this.put(filepath, data)` with no
`return` — same request and state effect, result replaced by `undefined`. -/
def v3PutConfigRun (st : ServerState) (p d : String) : Except JsError (Option Json) × ServerState :=
  let pr := v3PutRun st p d
  (pr.1.map (fun _ => none), pr.2)

/-- v3 `delete` round trip. -/
def v3DeleteRun (st : ServerState) (p : String) : Except JsError Unit × ServerState :=
  let rs := pageService st (v3DeleteReq p)
  (v3DeleteHandle (.success rs.1), rs.2)

/- ### v1: FaunaBridge, graphql package, query-DSL revision -/

/-- Match of the regex `"^" ++ pat` at the start of a string, for patterns
in which `.` is the only metacharacter actually given a meaning: `.`
matches any character, every other character matches itself.  This is
what `Count(FindStrRegex(filename, "^" ++ filepath)) > 0` computes for
such patterns, since the anchored match can only occur at position 0. -/
def dotMatch : List Char → List Char → Bool
  | [], _ => true
  | _ :: _, [] => false
  | p :: ps, c :: cs => (p == '.' || p == c) && dotMatch ps cs

/-- Characters the regex grammar reserves; a pattern free of them matches
purely literally, so `dotMatch` is faithful on such patterns. -/
def regexMeta (c : Char) : Bool :=
  c == '.' || c == '*' || c == '+' || c == '?' || c == '(' || c == ')' ||
  c == '[' || c == ']' || c == '^' || c == '$' || c == '|' || c == '\\' ||
  c == '\x7b' || c == '\x7d'

/-- v1 `readDir`: `Map(Paginate(Filter(Documents, GT(Count(FindStrRegex(
filename, "^" ++ filepath)), 0)), size 12000), select filename)` — filter
the collection by the regex, keep one page of at most 12000 documents, and
read out the filenames.  `documents.data` is always present, so the
`return []` fallback is dead. -/
def v1ReadDir (st : ServerState) (q : String) : List String :=
  ((st.filter (fun kv => dotMatch q.data kv.1.data)).take 12000).map (fun kv => kv.1)

/-- v1 `glob` simply calls `readDir`. -/
def v1Glob (st : ServerState) (q : String) : List String := v1ReadDir st q

/-- Failures of the faunadb client call: the index match is empty and `Get`
raises instance-not-found, the secret is rejected, or the connection fails.
All three surface in JS as `Error` instances with these messages. -/
inductive FaunaFail where
  | notFound
  | unauthorized
  | transportFail
deriving DecidableEq, Repr

/-- The `message` of the underlying faunadb client error. -/
def faunaFailMessage : FaunaFail → String
  | .notFound => "instance not found"
  | .unauthorized => "unauthorized"
  | .transportFail => "network failure"

/-- What v1 `get` throws: a GraphQLError with its `message` and the
`status` extension (set to the caught error's `message`). -/
structure GraphQLErrorModel where
  message : String
  status : String
deriving DecidableEq, Repr

/-- The fixed message v1 `get` attaches to every caught error. -/
def v1UnauthorizedMessage : String :=
  "Unauthorized request to Fauna Database: please ensure your access token is valid."

/-- The `Select(data.page, Get(Match(page_by_filename, filepath)))` query:
the payload of the first document at the path, or instance-not-found when
the match is empty. -/
def v1GetQuery (st : ServerState) (p : String) : Except FaunaFail String :=
  match lookupState st p with
  | some page => .ok page
  | none => .error .notFound

/-- v1 `get`'s try/catch: a successful query returns the page (it is never
`undefined`, so the `return ''` fallback is dead); every caught failure —
the client errors are all `Error` instances — is rethrown as one
GraphQLError with the fixed unauthorized message and the caught error's
message in the `status` extension. -/
def v1GetHandle : Except FaunaFail String → Except GraphQLErrorModel String
  | .ok page => .ok page
  | .error f => .error ⟨v1UnauthorizedMessage, faunaFailMessage f⟩

/-- v1 `get` against a collection state. -/
def v1Get (st : ServerState) (p : String) : Except GraphQLErrorModel String :=
  v1GetHandle (v1GetQuery st p)

/-- v1 `put`: `If(IsEmpty(Match(page_by_filename, filepath)), Create(data:
filename+page), Update(ref of first match, data: filename+page))`. -/
def v1Put (st : ServerState) (p v : String) : ServerState := upsert st p v

/-- v1 `putConfig`: `await this.put(filepath, data)`. -/
def v1PutConfig (st : ServerState) (p v : String) : ServerState := v1Put st p v

/-- Outcome of one faunadb client `query` call: the promise rejects with a
client failure, or resolves with the query's result. -/
inductive FaunaResult (α : Type) where
  | fail : FaunaFail → FaunaResult α
  | result : α → FaunaResult α
deriving DecidableEq, Repr

/-- v1 `readDir`'s handling of the call outcome.  There is no try/catch, so
a failed call propagates to the caller unchanged; on success the query's
`documents.data` is returned when defined and `[]` otherwise (dead for this
query, whose `Paginate` always populates `data` — `v1ReadDir` is the
call-succeeded run of this handling, with `.result (some page)`). -/
def v1ReadDirHandle : FaunaResult (Option (List String)) → Except FaunaFail (List String)
  | .fail f => .error f
  | .result (some xs) => .ok xs
  | .result none => .ok []

/-- v1 `glob` forwards `readDir`'s outcome unchanged — no catch either. -/
def v1GlobHandle (r : FaunaResult (Option (List String))) : Except FaunaFail (List String) :=
  v1ReadDirHandle r

/-- v1 `put`'s handling of the call outcome: the update query's result is
discarded and there is no try/catch, so a failed call propagates to the
caller unchanged (`v1Put` is the call-succeeded state effect). -/
def v1PutHandle : FaunaResult Unit → Except FaunaFail Unit
  | .fail f => .error f
  | .result _ => .ok ()

/- ### The method sets each FaunaBridge class declares -/

/-- Methods declared by the query-DSL revision of `FaunaBridge`
(graphql package, first class in the file): there is no `delete`. -/
def v1Methods : List String :=
  ["constructor", "readDir", "supportsBuilding", "glob", "get", "putConfig", "put"]

/-- Methods declared by the REST revision of `FaunaBridge`
(graphql package, second class in the file). -/
def v2Methods : List String :=
  ["constructor", "readDir", "supportsBuilding", "delete", "glob", "get", "putConfig", "put"]

/-- Methods declared by `FaunaBridge` of the datalayer package. -/
def v3Methods : List String :=
  ["constructor", "readDir", "supportsBuilding", "delete", "glob", "get", "putConfig", "put"]

/- ### FaunaStore (datalayer package, store/fauna.ts) -/

/-- The two capability predicates `FaunaStore` overrides.  In the source
each is a method returning a boolean literal and reading no state, so each
flag is a constant of its store type for the store's whole lifetime. -/
structure StoreFlags where
  supportsSeeding : Bool
  supportsIndexing : Bool
deriving DecidableEq, Repr

/-- First revision of `FaunaStore`: seeding on, indexing off. -/
def faunaStoreRev1 : StoreFlags := ⟨true, false⟩

/-- Second revision of `FaunaStore`: seeding off, indexing off. -/
def faunaStoreRev2 : StoreFlags := ⟨false, false⟩

/- ### Helper lemmas -/

/-- Any input containing `localhost` takes the first return of `parseURL`. -/
theorem parseURL_localhost (url : String) (h : strIncludes url "localhost" = true) :
    parseURL url = .ok ⟨none, true, none, false, none⟩ := by
  simp [parseURL, h]

/-- A write is visible to the next lookup of the same path. -/
theorem lookup_upsert (p v : String) :
    ∀ st : ServerState, lookupState (upsert st p v) p = some v := by
  intro st
  induction st with
  | nil => simp [upsert, lookupState]
  | cons kv rest ih =>
    by_cases h : kv.1 = p
    · simp [upsert, lookupState, h]
    · simp [upsert, lookupState, h, ih]

/-- On a pattern without `.`, the anchored regex match is the literal
prefix test. -/
theorem dotMatch_eq_startsList (q : List Char) (hq : ∀ c ∈ q, (c == '.') = false) :
    ∀ l : List Char, dotMatch q l = startsList q l := by
  induction q with
  | nil => intro l; rfl
  | cons a as ih =>
    intro l
    cases l with
    | nil => rfl
    | cons b bs =>
      have ha : (a == '.') = false := hq a (List.mem_cons_self a as)
      have ihs := ih (fun c hc => hq c (List.mem_cons_of_mem a hc))
      simp [dotMatch, startsList, ha, ihs]

/-- Projecting the paths out of a key-filtered document list is filtering
the projected paths. -/
theorem filter_fst_comm (P : String → Bool) :
    ∀ st : ServerState,
      (st.filter (fun kv => P kv.1)).map (fun kv => kv.1)
        = (st.map (fun kv => kv.1)).filter P := by
  intro st
  induction st with
  | nil => rfl
  | cons kv rest ih =>
    cases hp : P kv.1 <;> simp [List.filter_cons, hp, ih]

/- ### Claim theorems -/

/-- C1: `parseURL` resolves the four documented connection-string shapes:
every input containing `localhost` yields the local variant with no branch
or clientId; `https://content.tinajs.io/content/abc123/github/main` yields
clientId `abc123`, branch `main`, isLocalClient false, isFaunaClient false;
any other absolute URL (one the URL constructor accepts, with a host other
than the hosted-service host) yields isFaunaClient true with faunaContentUrl
equal to the input verbatim; and
`https://content.tinajs.io/content//github/` (missing clientId) fails with
the format error. -/
theorem C1_parseURL_connection_shapes :
    (∀ url : String, strIncludes url "localhost" = true →
      parseURL url = .ok ⟨none, true, none, false, none⟩)
    ∧ parseURL "https://content.tinajs.io/content/abc123/github/main"
        = .ok ⟨some "main", false, some "abc123", false, none⟩
    ∧ (∀ url host pathname, strIncludes url "localhost" = false →
        urlParse url = some (host, pathname) → host ≠ TINA_HOST →
        parseURL url = .ok ⟨none, false, none, true, some url⟩)
    ∧ parseURL "https://content.tinajs.io/content//github/" = .error .formatError := by
  refine ⟨fun url h => parseURL_localhost url h, by rfl, ?_, by rfl⟩
  intro url host pathname hloc hurl hhost
  simp [parseURL, hloc, hurl, hhost]

/-- C1 witness: the theorem applied at the spec's concrete inputs — the
local example and the remote-document example. -/
theorem C1_witness_concrete :
    parseURL "http://localhost:1234/graphql" = .ok ⟨none, true, none, false, none⟩
    ∧ parseURL "https://my-fauna-domain.example/api"
        = .ok ⟨none, false, none, true, some "https://my-fauna-domain.example/api"⟩ :=
  ⟨C1_parseURL_connection_shapes.1 "http://localhost:1234/graphql" (by decide),
   C1_parseURL_connection_shapes.2.2.1 "https://my-fauna-domain.example/api"
     "my-fauna-domain.example" "/api" (by decide) rfl (by decide)⟩

/-- C10: `parseURL` classifies by substring, not by host — every input
containing `localhost` anywhere (valid URL or not) returns the local
variant immediately, and an input on which `parseURL` fails (with either
error) never contains `localhost`: URL parsing and the format check are
only reached for inputs without that substring. -/
theorem C10_localhost_short_circuit :
    (∀ url : String, strIncludes url "localhost" = true →
      parseURL url = .ok ⟨none, true, none, false, none⟩)
    ∧ (∀ url : String, ∀ e : ParseUrlError, parseURL url = .error e →
        strIncludes url "localhost" = false) := by
  refine ⟨fun url h => parseURL_localhost url h, ?_⟩
  intro url e h
  cases hb : strIncludes url "localhost" with
  | false => rfl
  | true =>
    rw [parseURL_localhost url hb] at h
    exact Except.noConfusion h

/-- C10 witness: the theorem applied at `notlocalhost.example.com` — not a
valid URL and with `localhost` only inside a longer hostname, yet resolved
to the local variant — and at the format-error input, shown to be free of
the substring. -/
theorem C10_witness_notlocalhost :
    parseURL "notlocalhost.example.com" = .ok ⟨none, true, none, false, none⟩
    ∧ strIncludes "https://content.tinajs.io/content//github/" "localhost" = false :=
  ⟨C10_localhost_short_circuit.1 "notlocalhost.example.com" (by decide),
   C10_localhost_short_circuit.2 "https://content.tinajs.io/content//github/"
     .formatError rfl⟩

/-- C2: write-then-read consistency, settled per variant.  The query-DSL
revision and the datalayer REST revision satisfy it for every state, path
and payload.  The graphql REST revision does not: its `put` serializes the
request body with `Object.prototype.toString`, sending the constant
`[object Object]`, so the backend never receives the path or the payload —
evaluated at the failing input (empty backend, `put("content/a.md",
"hello")` then `get("content/a.md")`), the write leaves the state empty and
the read returns the empty payload, not `"hello"`. -/
theorem C2_put_then_get :
    (∀ (st : ServerState) (p v : String), v1Get (v1Put st p v) p = .ok v)
    ∧ (∀ (st : ServerState) (p v : String),
        (v3GetRun (v3PutRun st p v).2 p).1 = .ok (Json.val (JVal.s v)))
    ∧ ((v2PutRun [] "content/a.md" "hello").2 = ([] : ServerState)
        ∧ (v2GetRun [] "content/a.md").1 = .ok (Json.val (JVal.s ""))
        ∧ Json.val (JVal.s "") ≠ Json.val (JVal.s "hello")) := by
  refine ⟨?_, ?_, rfl, rfl, by decide⟩
  · intro st p v
    unfold v1Get v1GetQuery v1Put
    rw [lookup_upsert]
    rfl
  · intro st p v
    have h1 : (v3PutRun st p v).2 = upsert st p v := rfl
    have h2 : (v3GetRun (upsert st p v) p).1
        = .ok (Json.val (JVal.s ((lookupState (upsert st p v) p).getD ""))) := rfl
    rw [h1, h2, lookup_upsert]
    rfl

/-- C3 counterexample: glob does not return exactly the literal-prefix
matches.  In the query-DSL revision the prefix is interpolated into a
regular expression, so the stored path `abc` is returned for the prefix
`a.c` although it does not start with it; and in the graphql REST revision
the request body is the constant `[object Object]`, so glob returns the
empty list although the stored path `a` starts with the prefix `a`. -/
theorem C3_counterexample_glob :
    v1Glob [("abc", "x")] "a.c" = ["abc"]
    ∧ strStartsWith "a.c" "abc" = false
    ∧ (v2GlobRun [("a", "x")] "a").1 = .ok ([] : List String)
    ∧ strStartsWith "a" "a" = true :=
  ⟨rfl, by decide, rfl, by decide⟩

/-- C3 amended: the datalayer REST revision's glob returns exactly the
stored paths starting with the prefix (the empty list, not an error, when
none match) and leaves the state unchanged; the query-DSL revision's glob
does so provided the prefix contains no regex metacharacter and at most
12000 paths match (its one result page); the graphql REST revision's glob
always returns the empty list, its request body having discarded the
prefix. -/
theorem C3_glob_amended :
    (∀ (st : ServerState) (q : String),
      (∀ c ∈ q.data, regexMeta c = false) →
      (st.filter (fun kv => strStartsWith q kv.1)).length ≤ 12000 →
      v1Glob st q = (st.map (fun kv => kv.1)).filter (fun p => strStartsWith q p))
    ∧ (∀ (st : ServerState) (q : String),
        (v3GlobRun st q).1
          = .ok ((st.map (fun kv => kv.1)).filter (fun p => strStartsWith q p))
        ∧ (v3GlobRun st q).2 = st)
    ∧ (∀ (st : ServerState) (q : String), (v2GlobRun st q).1 = .ok ([] : List String)) := by
  refine ⟨?_, fun st q => ⟨rfl, rfl⟩, fun st q => rfl⟩
  intro st q hMeta hLen
  have hdot : ∀ c ∈ q.data, (c == '.') = false := by
    intro c hc
    have := hMeta c hc
    cases hb : c == '.' with
    | false => rfl
    | true => rw [regexMeta, hb] at this; simp at this
  have hfilter : st.filter (fun kv => dotMatch q.data kv.1.data)
      = st.filter (fun kv => strStartsWith q kv.1) := by
    refine List.filter_congr ?_
    intro kv _
    rw [dotMatch_eq_startsList q.data hdot kv.1.data]; rfl
  unfold v1Glob v1ReadDir
  rw [hfilter, List.take_of_length_le hLen, filter_fst_comm]

/-- C3 witness: the amended theorem applied at a two-document state and the
metacharacter-free prefix `a`, for both proved variants. -/
theorem C3_witness_glob :
    v1Glob [("ab", "1"), ("zc", "2")] "a" = ["ab"]
    ∧ (v3GlobRun [("ab", "1"), ("zc", "2")] "a").1 = .ok ["ab"] :=
  ⟨C3_glob_amended.1 [("ab", "1"), ("zc", "2")] "a" (by decide) (by decide),
   (C3_glob_amended.2.1 [("ab", "1"), ("zc", "2")] "a").1⟩

/-- C4 counterexample: an HTTP failure of the round trip is not always
propagated — on a response with `ok` false, the datalayer bridge's readDir
returns the empty list, its get returns the empty string and its put
returns the empty string, all success values. -/
theorem C4_counterexample_http_error_swallowed :
    v3ReadDirHandle (.success ⟨false, none⟩) = .ok ([] : List String)
    ∧ v3GetHandle (.success ⟨false, none⟩) = .ok (Json.val (JVal.s ""))
    ∧ v3Put (.success ⟨false, none⟩) = .ok (some (Json.val (JVal.s ""))) :=
  ⟨rfl, rfl, rfl⟩

/-- C4 amended: a network failure (the fetch promise rejecting, or the
faunadb client call failing) is propagated as an error by every operation
of every variant — the query-DSL revision's readDir, glob and put have no
try/catch, so the failed call passes through unchanged, and its get
rethrows the failure as a GraphQLError — and no operation retries, each
consuming exactly one round-trip outcome by construction.  HTTP error
responses, however, are converted to success values: the datalayer bridge
maps any `ok: false` response to `[]`, `''` and `''` in readDir, get and
put and ignores the response in delete, and the graphql REST revision's
readDir maps an error response with a JSON body carrying no `data` field
to `[]`. -/
theorem C4_error_propagation_amended :
    (v3ReadDirHandle .netFail = .error .fetchRejected
      ∧ v3GetHandle .netFail = .error .fetchRejected
      ∧ v3Put .netFail = .error .fetchRejected
      ∧ v3DeleteHandle .netFail = .error .fetchRejected
      ∧ v2ReadDirHandle .netFail = .error .fetchRejected
      ∧ v2GetHandle .netFail = .error .fetchRejected
      ∧ v2Put .netFail = .error .fetchRejected
      ∧ v2DeleteHandle .netFail = .error .fetchRejected)
    ∧ (∀ f : FaunaFail,
        v1ReadDirHandle (.fail f) = .error f
        ∧ v1GlobHandle (.fail f) = .error f
        ∧ v1PutHandle (.fail f) = .error f
        ∧ v1GetHandle (.error f)
            = .error ⟨v1UnauthorizedMessage, faunaFailMessage f⟩)
    ∧ (∀ b : Option Json,
        v3ReadDirHandle (.success ⟨false, b⟩) = .ok ([] : List String)
        ∧ v3GetHandle (.success ⟨false, b⟩) = .ok (Json.val (JVal.s ""))
        ∧ v3Put (.success ⟨false, b⟩) = .ok (some (Json.val (JVal.s "")))
        ∧ v3DeleteHandle (.success ⟨false, b⟩) = .ok ())
    ∧ v2ReadDirHandle (.success errResp) = .ok ([] : List String) :=
  ⟨⟨rfl, rfl, rfl, rfl, rfl, rfl, rfl, rfl⟩,
   fun _ => ⟨rfl, rfl, rfl, rfl⟩,
   fun _ => ⟨rfl, rfl, rfl, rfl⟩, rfl⟩

/-- C5 counterexample: not every variant returns an empty string for an
absent document — the query-DSL revision's get on an empty collection
throws: Fauna's `Get` on the empty index match raises instance-not-found
and the catch block rethrows it as a GraphQLError. -/
theorem C5_counterexample_absent_throws :
    v1Get [] "posts/hello.md"
      = .error ⟨v1UnauthorizedMessage, faunaFailMessage .notFound⟩ := rfl

/-- C5 amended: the two REST variants return the empty string for an
absent document and never signal absence by an error; the query-DSL
variant instead throws a GraphQLError (whose message is the unrelated
unauthorized text) whenever the document is absent. -/
theorem C5_absent_get_amended :
    (∀ (st : ServerState) (p : String), lookupState st p = none →
      (v3GetRun st p).1 = .ok (Json.val (JVal.s ""))
      ∧ (v2GetRun st p).1 = .ok (Json.val (JVal.s "")))
    ∧ (∀ (st : ServerState) (p : String), lookupState st p = none →
        v1Get st p = .error ⟨v1UnauthorizedMessage, faunaFailMessage .notFound⟩) := by
  constructor
  · intro st p h
    constructor
    · have h3 : (v3GetRun st p).1
          = .ok (Json.val (JVal.s ((lookupState st p).getD ""))) := rfl
      rw [h3, h]
      rfl
    · have h2 : (v2GetRun st p).1
          = .ok (Json.val (JVal.s ((lookupState st p).getD ""))) := rfl
      rw [h2, h]
      rfl
  · intro st p h
    unfold v1Get v1GetQuery
    rw [h]
    rfl

/-- C5 witness: the amended theorem applied at the empty state and a
concrete missing path. -/
theorem C5_witness_absent :
    (v3GetRun [] "missing.md").1 = .ok (Json.val (JVal.s ""))
    ∧ v1Get [] "missing.md"
        = .error ⟨v1UnauthorizedMessage, faunaFailMessage .notFound⟩ :=
  ⟨(C5_absent_get_amended.1 [] "missing.md" rfl).1,
   C5_absent_get_amended.2 [] "missing.md" rfl⟩

/-- C6 counterexample: an auth failure is not surfaced as a kind distinct
from other failures — a missing document (not an auth rejection) produces
an error with exactly the same message as a credential rejection, the fixed
unauthorized text; only the status extension (the caught error's own
message) differs. -/
theorem C6_counterexample_auth_kind :
    v1GetHandle (.error .notFound)
      = .error ⟨v1UnauthorizedMessage, faunaFailMessage .notFound⟩
    ∧ v1GetHandle (.error .unauthorized)
      = .error ⟨v1UnauthorizedMessage, faunaFailMessage .unauthorized⟩
    ∧ faunaFailMessage .notFound ≠ faunaFailMessage .unauthorized :=
  ⟨rfl, rfl, by decide⟩

/-- C6 amended: no bridge variant surfaces a distinguishable auth-error
kind.  The query-DSL revision's get wraps every failure — auth rejection,
transport failure or missing document — in one GraphQLError whose message
is always the fixed unauthorized text, carrying the underlying cause only
in the status extension.  The datalayer REST variant maps an auth failure
(an HTTP error response) to the empty string like any other HTTP failure,
indistinguishable from an absent document.  The graphql REST revision's
get never checks `response.ok`, so an auth-rejection response with a JSON
body is returned as page content — a success value, not an error of any
kind. -/
theorem C6_error_kinds_amended :
    (∀ f : FaunaFail,
      v1GetHandle (.error f) = .error ⟨v1UnauthorizedMessage, faunaFailMessage f⟩)
    ∧ (∀ b : Option Json,
        v3GetHandle (.success ⟨false, b⟩) = .ok (Json.val (JVal.s "")))
    ∧ (∀ j : Json, v2GetHandle (.success ⟨false, some j⟩) = .ok j) :=
  ⟨fun _ => rfl, fun _ => rfl, fun _ => rfl⟩

/-- C7 counterexample: putConfig is not observationally identical to put in
the datalayer revision — on the same empty state, path and payload, put
resolves with the parsed acknowledgement while putConfig (which awaits put
but returns nothing) resolves with undefined. -/
theorem C7_counterexample_putConfig_result :
    (v3PutRun [] "a.md" "v").1 = .ok (some (Json.obj []))
    ∧ (v3PutConfigRun [] "a.md" "v").1 = .ok (none : Option Json)
    ∧ (some (Json.obj []) : Option Json) ≠ none :=
  ⟨rfl, rfl, by decide⟩

/-- C7 amended: in every variant putConfig delegates to put, issuing the
identical round trip, so the resulting backend state is always the same;
the result values also coincide in both graphql revisions (both resolve
with undefined), but in the datalayer revision put resolves with the
parsed response (or the empty string on HTTP failure) while putConfig
discards it and resolves with undefined. -/
theorem C7_putConfig_amended :
    (∀ (st : ServerState) (p v : String),
      (v3PutConfigRun st p v).2 = (v3PutRun st p v).2
      ∧ (v3PutConfigRun st p v).1 = ((v3PutRun st p v).1).map (fun _ => none))
    ∧ (∀ fr : FetchResult, v2PutConfig fr = v2Put fr)
    ∧ (∀ (st : ServerState) (p v : String), v1PutConfig st p v = v1Put st p v) := by
  refine ⟨fun st p v => ⟨rfl, rfl⟩, ?_, fun st p v => rfl⟩
  intro fr
  cases fr with
  | netFail => rfl
  | success r =>
    cases r with
    | mk ok body => cases body <;> rfl

/-- C8 counterexample: not every bridge variant provides delete — the
query-DSL revision of FaunaBridge declares no delete method at all, while
both REST revisions do. -/
theorem C8_counterexample_no_delete :
    v1Methods.contains "delete" = false
    ∧ v2Methods.contains "delete" = true
    ∧ v3Methods.contains "delete" = true := by decide

/-- C8 amended: the two REST revisions provide delete and it is idempotent
— the response is ignored, so deleting an absent path succeeds and an
immediate second delete of the same path also succeeds; the datalayer
revision's delete removes every document at the path; the query-DSL
revision provides no delete operation. -/
theorem C8_delete_amended :
    v2Methods.contains "delete" = true
    ∧ v3Methods.contains "delete" = true
    ∧ v1Methods.contains "delete" = false
    ∧ (∀ (st : ServerState) (p : String),
        (v3DeleteRun st p).1 = .ok ()
        ∧ (v3DeleteRun st p).2 = removeAll st p
        ∧ (v3DeleteRun (v3DeleteRun st p).2 p).1 = .ok ()
        ∧ (v2DeleteRun st p).1 = .ok ())
    ∧ (∀ p : String, (v3DeleteRun [] p).1 = .ok ()) :=
  ⟨by decide, by decide, by decide,
   fun st p => ⟨rfl, rfl, rfl, rfl⟩, fun p => rfl⟩

/-- C9: supportsIndexing is false in both shown revisions of FaunaStore,
supportsSeeding is true in the first and false in the second, so the
seeding flag differs by variant.  In the source each flag is a method
returning a boolean literal and reading no state, embedded here as a
constant of the store type — fixed for the store's lifetime. -/
theorem C9_store_capability_flags :
    faunaStoreRev1.supportsIndexing = false
    ∧ faunaStoreRev2.supportsIndexing = false
    ∧ faunaStoreRev1.supportsSeeding = true
    ∧ faunaStoreRev2.supportsSeeding = false
    ∧ faunaStoreRev1.supportsSeeding ≠ faunaStoreRev2.supportsSeeding := by decide

end Tina
